import Mathlib

/-!
Verification development for the `home-server-remote-sensing` repository.

The repository has two Python source files:

* `satellite_analyzer.py` — reads two single-band rasters, computes the
  normalized difference index `(b1 - b2) / (b1 + b2)` with an explicit
  zero-denominator policy (`np.where(denominator == 0., 0., ...)`), and
  renders heatmaps.  The driver `main` computes NDVI and MNDWI, skipping
  each when its input files are missing.
* `satellite_fetcher.py` — resolves a target point, builds a centered
  square bounding box, searches a catalog, and crops remote rasters with
  `download_subset` (a `WarpedVRT` window read whose profile is rebuilt
  from the window and the window transform).

Pixel values are embedded as rationals (the code computes in `float32`
after an explicit up-conversion; the rational model is the exact
idealization of that arithmetic).  Arrays are length-indexed lists of
rows with NumPy-style broadcasting for the elementwise operations that
`calculate_index` performs.  Fallible paths (uncaught Python exceptions)
are embedded as `Option`/`Except`.
-/

/-- A 2-D NumPy array as the analyzer sees it: a declared shape and the
row-major data.  `entry` reads a pixel with a default of `0` out of
range. -/
structure Arr2 where
  r : ℕ
  c : ℕ
  data : List (List ℚ)
deriving DecidableEq, Repr

/-- Pixel read: row `i`, column `j`, defaulting to `0` out of range. -/
def Arr2.entry (x : Arr2) (i j : ℕ) : ℚ :=
  (x.data.getD i []).getD j 0

/-- NumPy broadcasting of one dimension: equal sizes pass through, a
size-1 dimension stretches to the other, anything else is an error. -/
def bdim (m n : ℕ) : Option ℕ :=
  if m = n then some m
  else if m = 1 then some n
  else if n = 1 then some m
  else none

/-- The pixel an array contributes at broadcast position `(i, j)`:
size-1 dimensions always contribute index `0`. -/
def Arr2.bentry (x : Arr2) (i j : ℕ) : ℚ :=
  x.entry (if x.r = 1 then 0 else i) (if x.c = 1 then 0 else j)

/-- Build an array of shape `r × c` from an entry function. -/
def mkArr2 (r c : ℕ) (g : ℕ → ℕ → ℚ) : Arr2 :=
  ⟨r, c, (List.range r).map fun i => (List.range c).map fun j => g i j⟩

/-- A NumPy elementwise binary operation with broadcasting; `none` is
the `ValueError` NumPy raises on incompatible shapes. -/
def npBinop (f : ℚ → ℚ → ℚ) (x y : Arr2) : Option Arr2 :=
  match bdim x.r y.r, bdim x.c y.c with
  | some r, some c => some (mkArr2 r c fun i j => f (x.bentry i j) (y.bentry i j))
  | _, _ => none

/-- `np.where(denominator == 0., 0., numer / denominator)`: elementwise
guarded division over two same-shape arrays.  Positions with a zero
denominator get `0` exactly; the suppressed `inf`/`nan` of the unguarded
branch is never selected. -/
def npWhereDiv (numer denom : Arr2) : Arr2 :=
  mkArr2 denom.r denom.c fun i j =>
    if denom.entry i j = 0 then 0 else numer.entry i j / denom.entry i j

/-- A single-band raster file as `calculate_index` reads it: band 1 of
the file (already converted to float) plus the file's metadata
(`src.meta`).  Metadata is left abstract as an opaque tag. -/
structure BandFile where
  arr : Arr2
  meta : String
deriving DecidableEq, Repr

/-- `calculate_index(band1_path, band2_path, index_name)` from
`satellite_analyzer.py`: reads both bands, forms `denominator = b1 + b2`
and `index_map = np.where(denominator == 0., 0., (b1 - b2) / denominator)`,
and returns `(index_map, meta)` where `meta` was captured from the first
file.  `none` models the uncaught NumPy `ValueError` on non-broadcastable
shapes (the function has no try/except of its own). -/
def calculate_index (f1 f2 : BandFile) : Option (Arr2 × String) :=
  match npBinop (· + ·) f1.arr f2.arr, npBinop (· - ·) f1.arr f2.arr with
  | some denom, some numer => some (npWhereDiv numer denom, f1.meta)
  | _, _ => none

/-! ## The analyzer driver (`main` of `satellite_analyzer.py`) -/

/-- The observable actions `main` of `satellite_analyzer.py` takes for
one run: skipping an index with a message, or computing it and saving
the heatmap. -/
inductive AnalyzerEvent
  | skippedNDVI
  | savedNDVI
  | skippedMNDWI
  | savedMNDWI
deriving DecidableEq, Repr

/-- The NDVI block of `main`: if `{base\x7d_B08.tif` and `{base\x7d_B04.tif`
both exist it calls `calculate_index` (any exception propagates — there
is no try/except in `main`) and saves the heatmap; otherwise it prints a
skip message.  `calcIdx` abstracts `calculate_index` applied to the files
on disk; `Except.error` is an uncaught Python exception. -/
def ndviStep (fs : List String) (base : String)
    (calcIdx : String → String → Except String (Arr2 × String)) :
    Except String (List AnalyzerEvent) :=
  if (base ++ "_B08.tif") ∈ fs ∧ (base ++ "_B04.tif") ∈ fs then
    match calcIdx (base ++ "_B08.tif") (base ++ "_B04.tif") with
    | Except.error e => Except.error e
    | Except.ok _ => Except.ok [AnalyzerEvent.savedNDVI]
  else Except.ok [AnalyzerEvent.skippedNDVI]

/-- The MNDWI block of `main`, over `{base\x7d_B03.tif` and
`{base\x7d_B11.tif`, mirroring `ndviStep`. -/
def mndwiStep (fs : List String) (base : String)
    (calcIdx : String → String → Except String (Arr2 × String)) :
    Except String (List AnalyzerEvent) :=
  if (base ++ "_B03.tif") ∈ fs ∧ (base ++ "_B11.tif") ∈ fs then
    match calcIdx (base ++ "_B03.tif") (base ++ "_B11.tif") with
    | Except.error e => Except.error e
    | Except.ok _ => Except.ok [AnalyzerEvent.savedMNDWI]
  else Except.ok [AnalyzerEvent.skippedMNDWI]

/-- `main` of `satellite_analyzer.py`: the NDVI block runs first, then
the MNDWI block; an uncaught exception in either block aborts the whole
run (there is no exception handler in the file). -/
def analyzer_main (fs : List String) (base : String)
    (calcIdx : String → String → Except String (Arr2 × String)) :
    Except String (List AnalyzerEvent) := do
  let v1 ← ndviStep fs base calcIdx
  let v2 ← mndwiStep fs base calcIdx
  return v1 ++ v2

/-- A `calcIdx` oracle that raises on the NDVI band pair and succeeds on
the MNDWI pair; used to exhibit the abort-on-exception behavior. -/
def calcBoom : String → String → Except String (Arr2 × String) :=
  fun p _ =>
    if p = "x_B08.tif" then Except.error "boom"
    else Except.ok (⟨1, 1, [[0]]⟩, "m")

/-- A `calcIdx` oracle that always succeeds; used to exhibit the
skip-and-continue behavior. -/
def calcOk : String → String → Except String (Arr2 × String) :=
  fun _ _ => Except.ok (⟨1, 1, [[0]]⟩, "m")

/-! ## The fetcher (`satellite_fetcher.py`) -/

/-- How `download_subset`'s broad `except Exception` clause can be
entered: rasterio raises an IO/transient-access error (unreachable or
expired resource) or a decoding error (corrupt or unsupported data). -/
inductive SubsetError
  | ioErr (msg : String)
  | decodeErr (msg : String)
deriving DecidableEq, Repr

/-- The text `str(e)` renders for the exception: its message only — the
kind is not part of what the `except` clause formats. -/
def errText : SubsetError → String
  | SubsetError.ioErr m => m
  | SubsetError.decodeErr m => m

/-- What a call to `download_subset` leaves behind: whether the output
file was written, what was printed, and which exception (if any) was
propagated to the caller. -/
structure SubsetResult where
  saved : Bool
  printed : List String
  raised : Option SubsetError
deriving DecidableEq, Repr

/-- `download_subset(href, save_path, bbox)` from `satellite_fetcher.py`,
abstracted over the outcome `read` of the rasterio open/window/read/write
sequence inside its `try` block.  The whole body is wrapped in
`try ... except Exception as e:` which prints an error line containing
`str(e)` plus a fixed hint and falls through — it never re-raises and
never distinguishes the exception's kind. -/
def download_subset (read : Except SubsetError (Arr2 × String)) : SubsetResult :=
  match read with
  | Except.ok _ => { saved := true, printed := ["done: crop saved"], raised := none }
  | Except.error e =>
      { saved := false
        printed := ["subset error: " ++ errText e, "hint: expired URL or GDAL/rasterio mismatch"]
        raised := none }

/-! ## Geo data model (affine transforms, windows, profiles) -/

/-- Modelled from the spec: rasterio's `Affine` transform, the linear
pixel-to-world mapping `x = a*col + b*row + c`, `y = d*col + e*row + f`
(rasterio applies an affine to `(col, row)` pairs).  Coefficients are
rationals: the exact idealization of the double-precision transform. -/
structure Affine where
  a : ℚ
  b : ℚ
  c : ℚ
  d : ℚ
  e : ℚ
  f : ℚ
deriving DecidableEq, Repr

/-- Apply an affine transform to pixel `(col, row)`, giving world
`(x, y)`. -/
def Affine.applyXY (t : Affine) (col row : ℚ) : ℚ × ℚ :=
  (t.a * col + t.b * row + t.c, t.d * col + t.e * row + t.f)

/-- Modelled from the spec: a pixel-space `Window`
`(row_offset, col_offset, row_count, col_count)` in the reprojection
view's pixel space; rasterio windows from `vrt.window(*bbox)` may have
fractional offsets and counts, hence rationals. -/
structure Window where
  row_offset : ℚ
  col_offset : ℚ
  row_count : ℚ
  col_count : ℚ
deriving DecidableEq, Repr

/-- Output raster metadata, the fields of `vrt.profile` that
`download_subset` reads or rewrites. -/
structure RasterProfile where
  driver : String
  width : ℚ
  height : ℚ
  count : ℕ
  dtype : String
  crs : String
  transform : Affine
deriving DecidableEq, Repr

/-- Modelled from the spec: the `ReprojectionView` (rasterio
`WarpedVRT`) — a reprojected transform plus the profile the view
presents. -/
structure ReprojectionView where
  transform : Affine
  profile : RasterProfile
deriving DecidableEq, Repr

/-- Modelled from the spec: rasterio's `vrt.window_transform(window)` —
the view's transform adjusted for the window's offsets, so the new
origin is the world coordinate of the window's top-left pixel while the
pixel size/rotation terms are kept. -/
def window_transform (t : Affine) (w : Window) : Affine :=
  { a := t.a, b := t.b, c := t.a * w.col_offset + t.b * w.row_offset + t.c
    d := t.d, e := t.e, f := t.d * w.col_offset + t.e * w.row_offset + t.f }

/-- Lines 62–70 of `satellite_fetcher.py`: `profile = vrt.profile.copy()`
then `profile.update({'driver': 'GTiff', 'height': window.height,
'width': window.width, 'transform': transform})`; band count and dtype
are not in the update dict, so the copy preserves them. -/
def synthesize_profile (v : ReprojectionView) (w : Window) : RasterProfile :=
  { v.profile with
      driver := "GTiff"
      height := w.row_count
      width := w.col_count
      transform := window_transform v.transform w }

/-- A geographic bounding box `(west, south, east, north)` in degrees. -/
structure BoundingBox where
  west : ℚ
  south : ℚ
  east : ℚ
  north : ℚ
deriving DecidableEq, Repr

/-- The BoundingBox invariant of the data model: `west < east` and
`south < north`. -/
def BoundingBox.valid (bb : BoundingBox) : Prop :=
  bb.west < bb.east ∧ bb.south < bb.north

instance (bb : BoundingBox) : Decidable bb.valid := by
  unfold BoundingBox.valid; infer_instance

/-- Line 125 of `satellite_fetcher.py`:
`search_bbox = [lon - s, lat - s, lon + s, lat + s]` for
`s = args.bbox_size`; no code path checks the sign of `s`. -/
def get_search_bbox (lon lat s : ℚ) : BoundingBox :=
  ⟨lon - s, lat - s, lon + s, lat + s⟩

/-- The two bounding boxes the fetcher `main` hands out: one to
`catalog.search(bbox=search_bbox, ...)` and one to
`download_subset(href, path, search_bbox)`. -/
structure FetchPlan where
  searchBbox : BoundingBox
  subsetBbox : BoundingBox
deriving DecidableEq, Repr

/-- `main` of `satellite_fetcher.py`, restricted to its bounding-box
dataflow: the single `search_bbox` built on line 125 is passed both to
the catalog search (line 129) and to every `download_subset` call
(line 167), unconditionally in `bbox_size`. -/
def fetch_plan (lon lat s : ℚ) : FetchPlan :=
  ⟨get_search_bbox lon lat s, get_search_bbox lon lat s⟩

/-! ## Helper lemmas -/

theorem bdim_self (m : ℕ) : bdim m m = some m := by
  unfold bdim; simp

theorem entry_mkArr2 (r c : ℕ) (g : ℕ → ℕ → ℚ) (i j : ℕ)
    (hi : i < r) (hj : j < c) : (mkArr2 r c g).entry i j = g i j := by
  unfold mkArr2 Arr2.entry
  simp [List.getD_eq_getElem?_getD, List.getElem?_map, List.getElem?_range, hi, hj]

theorem bentry_eq_entry (x : Arr2) (i j : ℕ) (hi : i < x.r) (hj : j < x.c) :
    x.bentry i j = x.entry i j := by
  unfold Arr2.bentry
  have h1 : (if x.r = 1 then 0 else i) = i := by split <;> omega
  have h2 : (if x.c = 1 then 0 else j) = j := by split <;> omega
  rw [h1, h2]

theorem mkArr2_r (r c : ℕ) (g : ℕ → ℕ → ℚ) : (mkArr2 r c g).r = r := rfl

theorem mkArr2_c (r c : ℕ) (g : ℕ → ℕ → ℚ) : (mkArr2 r c g).c = c := rfl

theorem calculate_index_same_shape (f1 f2 : BandFile)
    (hr : f1.arr.r = f2.arr.r) (hc : f1.arr.c = f2.arr.c) :
    ∃ m, calculate_index f1 f2 = some (m, f1.meta) ∧
      m.r = f1.arr.r ∧ m.c = f1.arr.c ∧
      ∀ i j, i < f1.arr.r → j < f1.arr.c →
        m.entry i j =
          if f1.arr.entry i j + f2.arr.entry i j = 0 then 0
          else (f1.arr.entry i j - f2.arr.entry i j) /
            (f1.arr.entry i j + f2.arr.entry i j) := by
  have hadd : npBinop (· + ·) f1.arr f2.arr =
      some (mkArr2 f1.arr.r f1.arr.c fun i j =>
        f1.arr.bentry i j + f2.arr.bentry i j) := by
    unfold npBinop
    rw [← hr, ← hc, bdim_self, bdim_self]
  have hsub : npBinop (· - ·) f1.arr f2.arr =
      some (mkArr2 f1.arr.r f1.arr.c fun i j =>
        f1.arr.bentry i j - f2.arr.bentry i j) := by
    unfold npBinop
    rw [← hr, ← hc, bdim_self, bdim_self]
  refine ⟨npWhereDiv
      (mkArr2 f1.arr.r f1.arr.c fun i j => f1.arr.bentry i j - f2.arr.bentry i j)
      (mkArr2 f1.arr.r f1.arr.c fun i j => f1.arr.bentry i j + f2.arr.bentry i j),
      ?_, rfl, rfl, ?_⟩
  · unfold calculate_index
    rw [hadd, hsub]
  · intro i j hi hj
    have hi2 : i < f2.arr.r := hr ▸ hi
    have hj2 : j < f2.arr.c := hc ▸ hj
    have hd : (mkArr2 f1.arr.r f1.arr.c fun i j =>
        f1.arr.bentry i j + f2.arr.bentry i j).entry i j =
        f1.arr.entry i j + f2.arr.entry i j := by
      rw [entry_mkArr2 _ _ _ i j hi hj, bentry_eq_entry _ _ _ hi hj,
        bentry_eq_entry _ _ _ hi2 hj2]
    have hn : (mkArr2 f1.arr.r f1.arr.c fun i j =>
        f1.arr.bentry i j - f2.arr.bentry i j).entry i j =
        f1.arr.entry i j - f2.arr.entry i j := by
      rw [entry_mkArr2 _ _ _ i j hi hj, bentry_eq_entry _ _ _ hi hj,
        bentry_eq_entry _ _ _ hi2 hj2]
    unfold npWhereDiv
    rw [mkArr2_r, mkArr2_c] at *
    rw [entry_mkArr2 _ _ _ i j hi hj, hd, hn]

/-! ## Claim theorems -/

/-- C1: for every reprojection view `v` and window `w`, the transform of
the profile synthesized for `(v, w)` applied to pixel `(0,0)` of the
output equals `v`'s transform applied to pixel
`(w.row_offset, w.col_offset)`: the cropped output's origin is the world
coordinate of the window's top-left pixel in the view. -/
theorem C1_crop_origin_georeferencing (v : ReprojectionView) (w : Window) :
    (synthesize_profile v w).transform.applyXY 0 0 =
      v.transform.applyXY w.col_offset w.row_offset := by
  simp [synthesize_profile, window_transform, Affine.applyXY]

/-- C2: the synthesized profile always has `width = w.col_count` and
`height = w.row_count`, while band count and dtype are carried over
unchanged from the source profile (they are not in the update dict). -/
theorem C2_profile_dims_preserved (v : ReprojectionView) (w : Window) :
    (synthesize_profile v w).width = w.col_count ∧
    (synthesize_profile v w).height = w.row_count ∧
    (synthesize_profile v w).count = v.profile.count ∧
    (synthesize_profile v w).dtype = v.profile.dtype :=
  ⟨rfl, rfl, rfl, rfl⟩

/-- C3 counterexample: `download_subset` swallows a failed subset read —
an IO error is not surfaced to the caller (`raised = none`), and an IO
error and a decoding error with the same message text produce exactly
the same observable outcome, so the two kinds are not distinguished. -/
theorem C3_counterexample_error_swallowed :
    (download_subset (Except.error (SubsetError.ioErr "expired URL"))).raised = none ∧
    download_subset (Except.error (SubsetError.ioErr "read failed")) =
      download_subset (Except.error (SubsetError.decodeErr "read failed")) :=
  ⟨rfl, rfl⟩

/-- C3 amended: when a subset read fails, `download_subset` catches the
exception (of either kind), prints one generic error line containing the
exception text plus a fixed hint, and returns normally — nothing is
raised to the caller and the two error kinds are handled identically. -/
theorem C3_amended_catch_and_print (e : SubsetError) (d : Arr2 × String) :
    download_subset (Except.error e) =
      { saved := false
        printed := ["subset error: " ++ errText e,
          "hint: expired URL or GDAL/rasterio mismatch"]
        raised := none } ∧
    download_subset (Except.ok d) =
      { saved := true, printed := ["done: crop saved"], raised := none } :=
  ⟨rfl, rfl⟩

/-- C4: for same-shape bands, wherever `a + b ≠ 0` the output equals
`(a - b) / (a + b)` elementwise, and wherever both inputs are
non-negative the output lies in `[-1, 1]`. -/
theorem C4_normalized_difference_values (f1 f2 : BandFile)
    (hr : f1.arr.r = f2.arr.r) (hc : f1.arr.c = f2.arr.c) :
    ∃ m, calculate_index f1 f2 = some (m, f1.meta) ∧
      ∀ i j, i < f1.arr.r → j < f1.arr.c →
        (f1.arr.entry i j + f2.arr.entry i j ≠ 0 →
          m.entry i j = (f1.arr.entry i j - f2.arr.entry i j) /
            (f1.arr.entry i j + f2.arr.entry i j)) ∧
        (0 ≤ f1.arr.entry i j → 0 ≤ f2.arr.entry i j →
          -1 ≤ m.entry i j ∧ m.entry i j ≤ 1) := by
  obtain ⟨m, hm, -, -, hent⟩ := calculate_index_same_shape f1 f2 hr hc
  refine ⟨m, hm, ?_⟩
  intro i j hi hj
  rw [hent i j hi hj]
  constructor
  · intro hne
    rw [if_neg hne]
  · intro ha hb
    by_cases hz : f1.arr.entry i j + f2.arr.entry i j = 0
    · rw [if_pos hz]
      norm_num
    · rw [if_neg hz]
      have hpos : 0 < f1.arr.entry i j + f2.arr.entry i j :=
        lt_of_le_of_ne (by linarith) (Ne.symm hz)
      constructor
      · rw [le_div_iff₀ hpos]
        linarith
      · rw [div_le_one hpos]
        linarith

/-- C4 witness at the spec's 2×2 scenario `a = [[10,10],[0,5]]`,
`b = [[10,10],[0,0]]`. -/
theorem C4_witness :
    ∃ m, calculate_index ⟨⟨2, 2, [[10, 10], [0, 5]]⟩, "m1"⟩
        ⟨⟨2, 2, [[10, 10], [0, 0]]⟩, "m2"⟩ = some (m, "m1") := by
  obtain ⟨m, hm, -⟩ := C4_normalized_difference_values
    ⟨⟨2, 2, [[10, 10], [0, 5]]⟩, "m1"⟩ ⟨⟨2, 2, [[10, 10], [0, 0]]⟩, "m2"⟩ rfl rfl
  exact ⟨m, hm⟩

/-- C5: for same-shape bands, wherever `a + b = 0` exactly the output is
exactly `0` (never an undefined value: the model is total). -/
theorem C5_zero_denominator_policy (f1 f2 : BandFile)
    (hr : f1.arr.r = f2.arr.r) (hc : f1.arr.c = f2.arr.c) :
    ∃ m, calculate_index f1 f2 = some (m, f1.meta) ∧
      ∀ i j, i < f1.arr.r → j < f1.arr.c →
        f1.arr.entry i j + f2.arr.entry i j = 0 → m.entry i j = 0 := by
  obtain ⟨m, hm, -, -, hent⟩ := calculate_index_same_shape f1 f2 hr hc
  refine ⟨m, hm, fun i j hi hj hz => ?_⟩
  rw [hent i j hi hj, if_pos hz]

/-- C5 witness: at `a = [[1]]`, `b = [[-1]]` the only position has a
zero denominator and the output there is `0`. -/
theorem C5_witness :
    ∃ m, calculate_index ⟨⟨1, 1, [[1]]⟩, "m1"⟩ ⟨⟨1, 1, [[-1]]⟩, "m2"⟩ =
      some (m, "m1") ∧ m.entry 0 0 = 0 := by
  obtain ⟨m, hm, h⟩ := C5_zero_denominator_policy
    ⟨⟨1, 1, [[1]]⟩, "m1"⟩ ⟨⟨1, 1, [[-1]]⟩, "m2"⟩ rfl rfl
  refine ⟨m, hm, h 0 0 (by decide) (by decide) ?_⟩
  norm_num [Arr2.entry]

/-- C6 counterexample: a genuine shape mismatch — a `1×2` first band
against a `3×2` second band — is not reported as any kind of error:
NumPy broadcasting silently stretches the first band and
`calculate_index` returns a `3×2` result. -/
theorem C6_counterexample_broadcast_not_error :
    (Arr2.mk 1 2 [[1, 2]]).r ≠ (Arr2.mk 3 2 [[1, 1], [2, 2], [3, 3]]).r ∧
    calculate_index ⟨⟨1, 2, [[1, 2]]⟩, "m"⟩ ⟨⟨3, 2, [[1, 1], [2, 2], [3, 3]]⟩, "m2"⟩ =
      some (⟨3, 2, [[0, 1/3], [-1/3, 0], [-1/2, -1/5]]⟩, "m") := by
  constructor
  · decide
  · norm_num [calculate_index, npBinop, bdim, mkArr2, npWhereDiv, Arr2.entry,
      Arr2.bentry, List.range_succ]

/-- C6 amended: `calculate_index` performs no shape validation at all —
inputs whose shapes differ but are NumPy-broadcastable are silently
broadcast, producing an output of the broadcast shape, while
non-broadcastable shapes make the elementwise addition itself raise an
unhandled exception; no input-validation report exists. -/
theorem C6_amended_no_shape_validation (f1 f2 : BandFile) :
    (∀ r c, bdim f1.arr.r f2.arr.r = some r → bdim f1.arr.c f2.arr.c = some c →
      ∃ m, calculate_index f1 f2 = some (m, f1.meta) ∧ m.r = r ∧ m.c = c) ∧
    ((bdim f1.arr.r f2.arr.r = none ∨ bdim f1.arr.c f2.arr.c = none) →
      calculate_index f1 f2 = none) := by
  constructor
  · intro r c h1 h2
    refine ⟨npWhereDiv
        (mkArr2 r c fun i j => f1.arr.bentry i j - f2.arr.bentry i j)
        (mkArr2 r c fun i j => f1.arr.bentry i j + f2.arr.bentry i j),
      ?_, rfl, rfl⟩
    unfold calculate_index npBinop
    rw [h1, h2]
  · rintro (h | h)
    · simp [calculate_index, npBinop, h]
    · cases hr : bdim f1.arr.r f2.arr.r <;>
        simp [calculate_index, npBinop, h, hr]

/-- C6 amended witness: at the `1×2` versus `3×2` pair the broadcast
branch fires and the result has the broadcast shape `3×2`. -/
theorem C6_amended_witness :
    ∃ m, calculate_index ⟨⟨1, 2, [[1, 2]]⟩, "m"⟩
        ⟨⟨3, 2, [[1, 1], [2, 2], [3, 3]]⟩, "m2"⟩ = some (m, "m") ∧
      m.r = 3 ∧ m.c = 2 :=
  (C6_amended_no_shape_validation ⟨⟨1, 2, [[1, 2]]⟩, "m"⟩
    ⟨⟨3, 2, [[1, 1], [2, 2], [3, 3]]⟩, "m2"⟩).1 3 2 (by decide) (by decide)

/-- C7: for same-shape bands, wherever the denominator is nonzero the
index of `(a, b)` is the negation of the index of `(b, a)`. -/
theorem C7_antisymmetry (f1 f2 : BandFile)
    (hr : f1.arr.r = f2.arr.r) (hc : f1.arr.c = f2.arr.c) :
    ∃ m12 m21 me12 me21,
      calculate_index f1 f2 = some (m12, me12) ∧
      calculate_index f2 f1 = some (m21, me21) ∧
      ∀ i j, i < f1.arr.r → j < f1.arr.c →
        f1.arr.entry i j + f2.arr.entry i j ≠ 0 →
        m12.entry i j = - m21.entry i j := by
  obtain ⟨m12, hm12, -, -, h12⟩ := calculate_index_same_shape f1 f2 hr hc
  obtain ⟨m21, hm21, -, -, h21⟩ := calculate_index_same_shape f2 f1 hr.symm hc.symm
  refine ⟨m12, m21, _, _, hm12, hm21, ?_⟩
  intro i j hi hj hz
  have hi2 : i < f2.arr.r := hr ▸ hi
  have hj2 : j < f2.arr.c := hc ▸ hj
  have hz2 : f2.arr.entry i j + f1.arr.entry i j ≠ 0 := by
    rw [add_comm]; exact hz
  rw [h12 i j hi hj, h21 i j hi2 hj2, if_neg hz, if_neg hz2]
  have hnum : f1.arr.entry i j - f2.arr.entry i j =
      -(f2.arr.entry i j - f1.arr.entry i j) := by ring
  rw [hnum, add_comm (f2.arr.entry i j), neg_div]

/-- C7 witness at `a = [[2]]`, `b = [[1]]`. -/
theorem C7_witness :
    ∃ m12 m21 me12 me21,
      calculate_index ⟨⟨1, 1, [[2]]⟩, "m1"⟩ ⟨⟨1, 1, [[1]]⟩, "m2"⟩ = some (m12, me12) ∧
      calculate_index ⟨⟨1, 1, [[1]]⟩, "m2"⟩ ⟨⟨1, 1, [[2]]⟩, "m1"⟩ = some (m21, me21) ∧
      m12.entry 0 0 = - m21.entry 0 0 := by
  obtain ⟨m12, m21, me12, me21, h1, h2, h⟩ := C7_antisymmetry
    ⟨⟨1, 1, [[2]]⟩, "m1"⟩ ⟨⟨1, 1, [[1]]⟩, "m2"⟩ rfl rfl
  refine ⟨m12, m21, me12, me21, h1, h2, h 0 0 (by decide) (by decide) ?_⟩
  norm_num [Arr2.entry]

/-- C9: the metadata returned by `calculate_index` is exactly the first
file's metadata, and the second file's metadata is never read — varying
it cannot change the result in any way. -/
theorem C9_meta_from_first_band (f1 : BandFile) (a2 : Arr2) (me me' : String) :
    calculate_index f1 ⟨a2, me⟩ = calculate_index f1 ⟨a2, me'⟩ ∧
    Option.map Prod.snd (calculate_index f1 ⟨a2, me⟩) =
      Option.map (fun _ => f1.meta) (calculate_index f1 ⟨a2, me⟩) := by
  constructor
  · rfl
  · unfold calculate_index
    cases h1 : npBinop (· + ·) f1.arr (BandFile.mk a2 me).arr <;>
      cases h2 : npBinop (· - ·) f1.arr (BandFile.mk a2 me).arr <;> rfl

/-- C8 counterexample: with all four band files present and an oracle
whose NDVI computation raises while its MNDWI computation would succeed
(second conjunct), the whole run aborts with the NDVI exception — the
MNDWI computation is prevented from running, so the two computations are
not independent under failure. -/
theorem C8_counterexample_failure_aborts_run :
    analyzer_main ["x_B08.tif", "x_B04.tif", "x_B03.tif", "x_B11.tif"] "x" calcBoom =
      Except.error "boom" ∧
    mndwiStep ["x_B08.tif", "x_B04.tif", "x_B03.tif", "x_B11.tif"] "x" calcBoom =
      Except.ok [AnalyzerEvent.savedMNDWI] := by
  constructor <;>
    simp [analyzer_main, ndviStep, mndwiStep, calcBoom, Bind.bind, Except.bind]

/-- C8 amended: when the NDVI input files are missing, that computation
is skipped with a message and the run continues into the MNDWI block
(first conjunct); but an exception raised inside the NDVI computation
itself propagates out of `main` and aborts the run before the MNDWI
block can run (second conjunct). -/
theorem C8_amended_skip_continues_failure_aborts (fs : List String) (base : String)
    (calcIdx : String → String → Except String (Arr2 × String)) :
    (¬((base ++ "_B08.tif") ∈ fs ∧ (base ++ "_B04.tif") ∈ fs) →
      ∀ v2, mndwiStep fs base calcIdx = Except.ok v2 →
        analyzer_main fs base calcIdx = Except.ok (AnalyzerEvent.skippedNDVI :: v2)) ∧
    (∀ e, (base ++ "_B08.tif") ∈ fs → (base ++ "_B04.tif") ∈ fs →
      calcIdx (base ++ "_B08.tif") (base ++ "_B04.tif") = Except.error e →
      analyzer_main fs base calcIdx = Except.error e) := by
  constructor
  · intro hmiss v2 hm
    simp [analyzer_main, ndviStep, if_neg hmiss, hm, Bind.bind, Except.bind,
      Pure.pure, Except.pure]
  · intro e h08 h04 hcalc
    simp [analyzer_main, ndviStep, if_pos (And.intro h08 h04), hcalc,
      Bind.bind, Except.bind]

/-- C8 amended witness: NDVI files missing, MNDWI files present and
succeeding — the run emits the skip and still saves MNDWI. -/
theorem C8_amended_witness :
    analyzer_main ["y_B03.tif", "y_B11.tif"] "y" calcOk =
      Except.ok (AnalyzerEvent.skippedNDVI :: [AnalyzerEvent.savedMNDWI]) :=
  (C8_amended_skip_continues_failure_aborts ["y_B03.tif", "y_B11.tif"] "y" calcOk).1
    (by simp) [AnalyzerEvent.savedMNDWI]
    (by simp [mndwiStep, calcOk])

/-- C10: the fetcher's single `search_bbox` — passed identically to the
catalog search and to every subset extraction — is always the centered
square `(lon - s, lat - s, lon + s, lat + s)`, it satisfies the
BoundingBox invariant `west < east ∧ south < north` exactly when
`s > 0`, and `fetch_plan` is total in `s`: no path rejects a
non-positive `bbox_size`. -/
theorem C10_centered_square_bbox (lon lat s : ℚ) :
    (fetch_plan lon lat s).searchBbox = ⟨lon - s, lat - s, lon + s, lat + s⟩ ∧
    (fetch_plan lon lat s).subsetBbox = (fetch_plan lon lat s).searchBbox ∧
    ((fetch_plan lon lat s).searchBbox.valid ↔ 0 < s) := by
  refine ⟨rfl, rfl, ?_⟩
  show (get_search_bbox lon lat s).valid ↔ 0 < s
  unfold get_search_bbox BoundingBox.valid
  constructor
  · rintro ⟨h, -⟩
    simp only at h
    linarith
  · intro h
    exact ⟨by simp only; linarith, by simp only; linarith⟩
